import Mathlib

/-!
Verification of the forge `random` module (src/js/random.js): the AES-128
PRNG plugin (`prng_aes.formatKey`, `prng_aes.formatSeed`, `prng_aes.cipher`,
`prng_aes.increment`), the load-time entropy collection of `initModule`, and
the public `forge.random.getBytes` API.

Bytes are modelled as natural numbers (JavaScript character codes); 32-bit
machine words are natural numbers, reduced modulo 2 ^ 32 exactly where the
JavaScript code truncates.  JavaScript numbers are exact integers in the
ranges exercised here, so plain `Nat` arithmetic is faithful.

The files `util.js`, `aes.js`, `md.js` and `prng.js` of the repository are
not under src/; the definitions for them below are marked
`Modelled from the spec:` and follow the description the specification gives of those
collaborators (byte buffers, the AES primitive treated as the supplied block
cipher, the SHA-1 digest, and the Fortuna accumulator/generator context).
-/

namespace Forge

/-- Modelled from the spec: `forge.util` byte buffers (util.js is not under
src/).  A buffer is a byte string together with a read pointer.  `getInt32`
reads four bytes big-endian; a read past the end of the data contributes 0,
matching the JavaScript semantics of `charCodeAt` returning `NaN` and
`NaN` being coerced to 0 by the shift and xor operators the library uses.
The word is returned as the natural number denoting its 32-bit pattern. -/
structure ByteBuffer where
  data : List Nat
  readPos : Nat
  deriving Repr, DecidableEq

/-- Modelled from the spec: `forge.util.createBuffer`, a buffer filled with
the given bytes and with the read pointer at the start. -/
def createBuffer (s : List Nat) : ByteBuffer := ⟨s, 0⟩

/-- Modelled from the spec: an empty `forge.util` buffer, the initial state
of the module-level buffer `_prng_aes_buffer`. -/
def emptyBuffer : ByteBuffer := ⟨[], 0⟩

/-- Modelled from the spec: `ByteBuffer.getInt32`; reads a big-endian 32-bit
word and advances the read pointer by four. -/
def ByteBuffer.getInt32 (b : ByteBuffer) : Nat × ByteBuffer :=
  (b.data.getD b.readPos 0 * 2 ^ 24 + b.data.getD (b.readPos + 1) 0 * 2 ^ 16 +
      b.data.getD (b.readPos + 2) 0 * 2 ^ 8 + b.data.getD (b.readPos + 3) 0,
    ⟨b.data, b.readPos + 4⟩)

/-- Big-endian byte decomposition of a 32-bit word, as appended by
`ByteBuffer.putInt32` (each byte is masked with 0xFF as in the library). -/
def int32Bytes (w : Nat) : List Nat :=
  [w / 2 ^ 24 % 256, w / 2 ^ 16 % 256, w / 2 ^ 8 % 256, w % 256]

/-- Modelled from the spec: `ByteBuffer.putInt32`; appends the four
big-endian bytes of a 32-bit word. -/
def ByteBuffer.putInt32 (b : ByteBuffer) (w : Nat) : ByteBuffer :=
  ⟨b.data ++ int32Bytes w, b.readPos⟩

/-- Modelled from the spec: `ByteBuffer.getBytes()` with no count; returns
all unread bytes and clears the buffer. -/
def ByteBuffer.getBytes (b : ByteBuffer) : List Nat × ByteBuffer :=
  (b.data.drop b.readPos, ⟨[], 0⟩)

/-- Big-endian 32-bit word read directly at offset `i` of a byte string;
used to state what the buffer-based conversions compute. -/
def beWord (s : List Nat) (i : Nat) : Nat :=
  s.getD i 0 * 2 ^ 24 + s.getD (i + 1) 0 * 2 ^ 16 +
    s.getD (i + 2) 0 * 2 ^ 8 + s.getD (i + 3) 0

namespace prng_aes

/-- Source src/js/random.js lines 38-47: `prng_aes.formatSeed` converts the
seed bytes into four 32-bit integers through a `forge.util` buffer. -/
def formatSeed (seed : List Nat) : List Nat :=
  let tmp := createBuffer seed
  let (s0, tmp) := tmp.getInt32
  let (s1, tmp) := tmp.getInt32
  let (s2, tmp) := tmp.getInt32
  let (s3, _) := tmp.getInt32
  [s0, s1, s2, s3]

/-- Source src/js/random.js lines 56-60: `prng_aes.increment` executes
`++seed[3]` and returns the seed.  JavaScript numbers are exact integers
here, so the word is incremented without any wrap. -/
def increment (seed : List Nat) : List Nat :=
  seed.set 3 (seed.getD 3 0 + 1)

end prng_aes

/-! AES-128, the supplied block-cipher primitive.  Modelled from the spec:
`forge.aes` (aes.js is not under src/) is "a supplied function" per the
scope section of the specification; the model is the standard AES-128 cipher.
Bytes and 32-bit words are natural numbers; each word is a state column,
most significant byte first, following the word layout of the library. -/

/-- Multiplication by x in GF(2 ^ 8) modulo the AES polynomial 0x11b. -/
def xtime (b : Nat) : Nat :=
  if b < 128 then 2 * b else ((2 * b) % 256) ^^^ 0x1b

/-- Fuelled core of GF(2 ^ 8) multiplication (peasant multiplication). -/
def gmulAux : Nat → Nat → Nat → Nat → Nat
  | 0, _, _, acc => acc
  | n + 1, a, b, acc =>
      gmulAux n (xtime a) (b / 2) (if b % 2 = 1 then acc ^^^ a else acc)

/-- Multiplication in GF(2 ^ 8). -/
def gmul (a b : Nat) : Nat := gmulAux 8 (a % 256) (b % 256) 0

/-- Power in GF(2 ^ 8). -/
def gpow : Nat → Nat → Nat
  | _, 0 => 1
  | a, n + 1 => gmul a (gpow a n)

/-- Multiplicative inverse in GF(2 ^ 8), with 0 mapped to 0. -/
def ginv (b : Nat) : Nat := if b % 256 = 0 then 0 else gpow (b % 256) 254

/-- Left rotation of an 8-bit value. -/
def rotl8 (b n : Nat) : Nat := ((b * 2 ^ n) % 256) + b / 2 ^ (8 - n)

/-- The AES S-box, by its defining construction: multiplicative inverse in
GF(2 ^ 8) followed by the affine transformation. -/
def sboxByte (b : Nat) : Nat :=
  let i := ginv b
  i ^^^ rotl8 i 1 ^^^ rotl8 i 2 ^^^ rotl8 i 3 ^^^ rotl8 i 4 ^^^ 0x63

/-- The inverse AES S-box, as the index inverting `sboxByte`. -/
def invSboxByte (y : Nat) : Nat :=
  (List.range 256).findIdx fun x => sboxByte x == y % 256

/-- Byte `k` (0 = most significant) of a 32-bit word. -/
def byteAt (w k : Nat) : Nat := w / 2 ^ (8 * (3 - k)) % 256

/-- Builds a 32-bit word from four bytes, most significant first. -/
def word4 (b0 b1 b2 b3 : Nat) : Nat :=
  b0 % 256 * 2 ^ 24 + b1 % 256 * 2 ^ 16 + b2 % 256 * 2 ^ 8 + b3 % 256

/-- Applies the S-box to each byte of a word. -/
def subWord (w : Nat) : Nat :=
  word4 (sboxByte (byteAt w 0)) (sboxByte (byteAt w 1))
    (sboxByte (byteAt w 2)) (sboxByte (byteAt w 3))

/-- Applies the inverse S-box to each byte of a word. -/
def invSubWord (w : Nat) : Nat :=
  word4 (invSboxByte (byteAt w 0)) (invSboxByte (byteAt w 1))
    (invSboxByte (byteAt w 2)) (invSboxByte (byteAt w 3))

/-- Rotates a word left by one byte. -/
def rotWord (w : Nat) : Nat := (w % 2 ^ 24) * 2 ^ 8 + w / 2 ^ 24 % 256

/-- Round constants of the AES key schedule, as key-schedule words. -/
def rconWord (i : Nat) : Nat :=
  [0x01, 0x02, 0x04, 0x08, 0x10, 0x20, 0x40, 0x80, 0x1b, 0x36].getD i 0 * 2 ^ 24

/-- One step of the AES-128 key expansion: the next schedule word from the
words produced so far. -/
def expandStep (ws : List Nat) : Nat :=
  let i := ws.length
  let prev := ws.getD (i - 1) 0
  let t := if i % 4 == 0 then subWord (rotWord prev) ^^^ rconWord (i / 4 - 1)
    else prev
  (ws.getD (i - 4) 0 ^^^ t) % 2 ^ 32

/-- Iterates `expandStep`, appending `n` further schedule words. -/
def expandWords : Nat → List Nat → List Nat
  | 0, ws => ws
  | n + 1, ws => expandWords n (ws ++ [expandStep ws])

/-- Round key `r` (four words) of an expanded schedule. -/
def roundKey (w : List Nat) (r : Nat) : List Nat := (w.drop (4 * r)).take 4

/-- The MixColumns transformation on one column word. -/
def mixColumnsWord (w : Nat) : Nat :=
  let b0 := byteAt w 0
  let b1 := byteAt w 1
  let b2 := byteAt w 2
  let b3 := byteAt w 3
  word4 (gmul 2 b0 ^^^ gmul 3 b1 ^^^ b2 ^^^ b3)
    (b0 ^^^ gmul 2 b1 ^^^ gmul 3 b2 ^^^ b3)
    (b0 ^^^ b1 ^^^ gmul 2 b2 ^^^ gmul 3 b3)
    (gmul 3 b0 ^^^ b1 ^^^ b2 ^^^ gmul 2 b3)

/-- The InvMixColumns transformation on one column word. -/
def invMixColumnsWord (w : Nat) : Nat :=
  let b0 := byteAt w 0
  let b1 := byteAt w 1
  let b2 := byteAt w 2
  let b3 := byteAt w 3
  word4 (gmul 14 b0 ^^^ gmul 11 b1 ^^^ gmul 13 b2 ^^^ gmul 9 b3)
    (gmul 9 b0 ^^^ gmul 14 b1 ^^^ gmul 11 b2 ^^^ gmul 13 b3)
    (gmul 13 b0 ^^^ gmul 9 b1 ^^^ gmul 14 b2 ^^^ gmul 11 b3)
    (gmul 11 b0 ^^^ gmul 13 b1 ^^^ gmul 9 b2 ^^^ gmul 14 b3)

/-- The ShiftRows transformation on the four column words. -/
def shiftRowsWords (cs : List Nat) : List Nat :=
  (List.range 4).map fun j =>
    word4 (byteAt (cs.getD (j % 4) 0) 0) (byteAt (cs.getD ((j + 1) % 4) 0) 1)
      (byteAt (cs.getD ((j + 2) % 4) 0) 2) (byteAt (cs.getD ((j + 3) % 4) 0) 3)

/-- The InvShiftRows transformation on the four column words. -/
def invShiftRowsWords (cs : List Nat) : List Nat :=
  (List.range 4).map fun j =>
    word4 (byteAt (cs.getD (j % 4) 0) 0) (byteAt (cs.getD ((j + 3) % 4) 0) 1)
      (byteAt (cs.getD ((j + 2) % 4) 0) 2) (byteAt (cs.getD ((j + 1) % 4) 0) 3)

/-- AddRoundKey: xor of the state columns with a round key, always
producing four words. -/
def addRoundKey (s k : List Nat) : List Nat :=
  (List.range 4).map fun j => (s.getD j 0 ^^^ k.getD j 0) % 2 ^ 32

/-- AES-128 encryption of one block given the expanded schedule. -/
def encryptBlock (w input : List Nat) : List Nat :=
  let s0 := addRoundKey input (roundKey w 0)
  let sm := (List.range 9).foldl
    (fun s r =>
      addRoundKey ((shiftRowsWords (s.map subWord)).map mixColumnsWord)
        (roundKey w (r + 1)))
    s0
  addRoundKey (shiftRowsWords (sm.map subWord)) (roundKey w 10)

/-- AES-128 decryption of one block given the equivalent-inverse-cipher
schedule produced by the key expansion with the decrypt flag set. -/
def decryptBlock (dw input : List Nat) : List Nat :=
  let s0 := addRoundKey input (roundKey dw 0)
  let sm := (List.range 9).foldl
    (fun s r =>
      addRoundKey ((invShiftRowsWords (s.map invSubWord)).map invMixColumnsWord)
        (roundKey dw (r + 1)))
    s0
  addRoundKey (invShiftRowsWords (sm.map invSubWord)) (roundKey dw 10)

namespace aes

/-- Modelled from the spec: `forge.aes._expandKey(key, decrypt)` (aes.js is
not under src/).  Expands four key words into the 44-word AES-128 schedule;
with the decrypt flag it returns the equivalent-inverse-cipher schedule
(round keys reversed, InvMixColumns applied to the middle round keys). -/
def _expandKey (key : List Nat) (decrypt : Bool) : List Nat :=
  let w := expandWords 40 key
  if decrypt then
    (List.range 11).foldl
      (fun acc r =>
        let rk := roundKey w (10 - r)
        acc ++ (if r = 0 ∨ r = 10 then rk else rk.map invMixColumnsWord))
      []
  else w

/-- Modelled from the spec: `forge.aes._updateBlock(w, input, output,
decrypt)`; the four words written into the output array (the array is
overwritten whole, so it is rendered as the returned value). -/
def _updateBlock (w input : List Nat) (decrypt : Bool) : List Nat :=
  if decrypt then decryptBlock w input else encryptBlock w input

end aes

namespace prng_aes

/-- Source src/js/random.js lines 26-37: `prng_aes.formatKey` converts the
key bytes into four 32-bit integers through a `forge.util` buffer and
returns `forge.aes._expandKey(key, false)`. -/
def formatKey (key : List Nat) : List Nat :=
  let tmp := createBuffer key
  let (k0, tmp) := tmp.getInt32
  let (k1, tmp) := tmp.getInt32
  let (k2, tmp) := tmp.getInt32
  let (k3, _) := tmp.getInt32
  aes._expandKey [k0, k1, k2, k3] false

end prng_aes

namespace prng_aes

/-- Source src/js/random.js lines 48-55: `prng_aes.cipher` runs the AES
block update with the decrypt flag false, appends the four output words to
the shared module-level buffer `_prng_aes_buffer` as big-endian bytes, and
returns `getBytes()` on that buffer.  The module state the call touches is
the shared buffer (passed and returned explicitly) and the output array
`_prng_aes_output`, which `_updateBlock` overwrites whole, so the latter is
rendered as the local value `out`. -/
def cipher (key seed : List Nat) (buffer : ByteBuffer) :
    List Nat × ByteBuffer :=
  let out := aes._updateBlock key seed false
  let buffer := buffer.putInt32 (out.getD 0 0)
  let buffer := buffer.putInt32 (out.getD 1 0)
  let buffer := buffer.putInt32 (out.getD 2 0)
  let buffer := buffer.putInt32 (out.getD 3 0)
  buffer.getBytes

end prng_aes

/-- The counter behaviour the specification describes for `increment`: the
block read as one 128-bit big-endian integer is incremented and reduced
modulo 2 ^ 128, the carry propagating across the four 32-bit words. -/
def incrementAsBigInteger (ws : List Nat) : List Nat :=
  let v := (ws.foldl (fun acc w => acc * 2 ^ 32 + w % 2 ^ 32) 0 + 1) % 2 ^ 128
  [v / 2 ^ 96 % 2 ^ 32, v / 2 ^ 64 % 2 ^ 32, v / 2 ^ 32 % 2 ^ 32, v % 2 ^ 32]

/-! SHA-1, the digest the plugin names (`prng_aes.md = forge.md.sha1`,
src/js/random.js line 61).  Modelled from the spec: `forge.md.sha1` (md.js
is not under src/) is the supplied cryptographic digest; the model is
standard SHA-1 over byte strings. -/

/-- Left rotation of a 32-bit word. -/
def rotl32 (n x : Nat) : Nat := (x * 2 ^ n + x / 2 ^ (32 - n)) % 2 ^ 32

/-- One word of the SHA-1 message schedule past the first sixteen. -/
def sha1Step (ws : List Nat) : Nat :=
  rotl32 1 (ws.getD (ws.length - 3) 0 ^^^ ws.getD (ws.length - 8) 0 ^^^
    ws.getD (ws.length - 14) 0 ^^^ ws.getD (ws.length - 16) 0)

/-- Iterates `sha1Step`, appending `n` further schedule words. -/
def sha1Expand : Nat → List Nat → List Nat
  | 0, ws => ws
  | n + 1, ws => sha1Expand n (ws ++ [sha1Step ws])

/-- The SHA-1 round function. -/
def sha1F (t b c d : Nat) : Nat :=
  if t < 20 then (b &&& c) ||| ((b ^^^ (2 ^ 32 - 1)) &&& d)
  else if t < 40 then b ^^^ c ^^^ d
  else if t < 60 then (b &&& c) ||| (b &&& d) ||| (c &&& d)
  else b ^^^ c ^^^ d

/-- The SHA-1 round constants. -/
def sha1K (t : Nat) : Nat :=
  if t < 20 then 0x5a827999
  else if t < 40 then 0x6ed9eba1
  else if t < 60 then 0x8f1bbcdc
  else 0xca62c1d6

/-- One SHA-1 compression of a 64-byte chunk into the running state. -/
def sha1Compress (h chunk : List Nat) : List Nat :=
  let w := sha1Expand 64 ((List.range 16).map fun i => beWord chunk (4 * i))
  let s := (List.range 80).foldl
    (fun st t =>
      ((rotl32 5 st.1 + sha1F t st.2.1 st.2.2.1 st.2.2.2.1 + st.2.2.2.2 +
          sha1K t + w.getD t 0) % 2 ^ 32,
        st.1, rotl32 30 st.2.1, st.2.2.1, st.2.2.2.1))
    (h.getD 0 0, h.getD 1 0, h.getD 2 0, h.getD 3 0, h.getD 4 0)
  [(h.getD 0 0 + s.1) % 2 ^ 32, (h.getD 1 0 + s.2.1) % 2 ^ 32,
    (h.getD 2 0 + s.2.2.1) % 2 ^ 32, (h.getD 3 0 + s.2.2.2.1) % 2 ^ 32,
    (h.getD 4 0 + s.2.2.2.2) % 2 ^ 32]

/-- Modelled from the spec: the SHA-1 digest of a byte string, as 20
bytes. -/
def sha1 (msg : List Nat) : List Nat :=
  let padded := msg ++ [0x80] ++
    List.replicate ((120 - (msg.length + 1) % 64) % 64) 0 ++
    ((List.range 8).map fun i => 8 * msg.length / 2 ^ (8 * (7 - i)) % 256)
  let hs := (List.range (padded.length / 64)).foldl
    (fun h i => sha1Compress h ((padded.drop (64 * i)).take 64))
    [0x67452301, 0xefcdab89, 0x98badcfe, 0x10325476, 0xc3d2e1f0]
  hs.flatMap int32Bytes

/-! The Fortuna accumulator/generator context.  Modelled from the spec:
`forge.prng.create(prng_aes)` and the context operations `collect`,
`collectInt`, `generate` (prng.js is not under src/), following the
specification, sections 4.2-4.4: thirty-two entropy pools selected round-robin
for collection, one estimated bit of entropy per collected byte, a
reseed only when the estimate of pool 0 reaches a threshold, the exponential
pool-drain schedule, and on a cold start a best-effort bootstrap reseed
from the pooled material that marks the state weak-seeded.  `generate`
is a total function: it never blocks or fails, as §5 and §7 require. -/

namespace prng

/-- Modelled from the spec: the accumulator/generator state behind the
context returned by `forge.prng.create`. -/
structure Ctx where
  pools : List (List Nat)
  estimates : List Nat
  poolIndex : Nat
  keyBytes : Option (List Nat)
  counter : List Nat
  weakSeeded : Bool
  reseeds : Nat
  deriving Repr, DecidableEq

/-- Modelled from the spec: the fixed number of entropy pools. -/
def poolCount : Nat := 32

/-- Modelled from the spec: the minimum estimated entropy (in bits) pool 0
must hold before a genuine reseed is due. -/
def entropyThreshold : Nat := 32

/-- Modelled from the spec: `forge.prng.create(prng_aes)`; all pools empty,
no key material, the state not yet weak-seeded. -/
def create : Ctx :=
  ⟨List.replicate poolCount [], List.replicate poolCount 0, 0, none,
    [0, 0, 0, 0], false, 0⟩

/-- Modelled from the spec: `collect` appends the bytes to the pool
currently selected round-robin and credits one estimated bit of entropy
per byte. -/
def collect (ctx : Ctx) (bytes : List Nat) : Ctx :=
  { ctx with
    pools := ctx.pools.set ctx.poolIndex
      (ctx.pools.getD ctx.poolIndex [] ++ bytes)
    estimates := ctx.estimates.set ctx.poolIndex
      (ctx.estimates.getD ctx.poolIndex 0 + bytes.length)
    poolIndex := (ctx.poolIndex + 1) % poolCount }

/-- Big-endian packing of the low `bits` bits of an integer into whole
bytes, most significant first. -/
def intBytes (v bits : Nat) : List Nat :=
  (List.range (bits / 8)).map fun i => v / 2 ^ (8 * (bits / 8 - 1 - i)) % 256

/-- Modelled from the spec: `collectInt` packs `bits` bits of the value
big-endian into bytes and collects them. -/
def collectInt (ctx : Ctx) (v bits : Nat) : Ctx := collect ctx (intBytes v bits)

/-- Modelled from the spec: a reseed is due once the entropy estimate of pool 0
reaches the threshold. -/
def reseedDue (ctx : Ctx) : Bool := entropyThreshold ≤ ctx.estimates.getD 0 0

/-- Modelled from the spec: `drainForReseed`; on reseed number `n` the
pools whose index `k` has `2 ^ k` dividing `n` are concatenated into seed
material and cleared. -/
def drainForReseed (ctx : Ctx) : List Nat × Ctx :=
  let n := ctx.reseeds + 1
  let included := (List.range poolCount).filter fun k => n % 2 ^ k == 0
  (included.foldl (fun acc k => acc ++ ctx.pools.getD k []) [],
    { ctx with
      pools := included.foldl (fun ps k => ps.set k []) ctx.pools
      estimates := included.foldl (fun es k => es.set k 0) ctx.estimates })

/-- Modelled from the spec: the cold-start bootstrap drain; whatever
best-effort material the pools hold is concatenated and all pools are
cleared. -/
def drainAll (ctx : Ctx) : List Nat × Ctx :=
  (ctx.pools.foldl (fun acc p => acc ++ p) [],
    { ctx with
      pools := List.replicate poolCount []
      estimates := List.replicate poolCount 0 })

/-- Modelled from the spec: `reseed` combines the existing key material
with the new entropy through the SHA-1 digest the plugin names, deriving
fresh key bytes and a fresh counter block. -/
def reseed (ctx : Ctx) (entropy : List Nat) : Ctx :=
  let mat := sha1 (ctx.keyBytes.getD [] ++ entropy)
  { ctx with
    keyBytes := some (mat.take 16)
    counter := prng_aes.formatSeed (sha1 mat)
    reseeds := ctx.reseeds + 1 }

/-- Modelled from the spec: `generate(count)`; a due reseed is taken first;
an unseeded generator falls back to a bootstrap reseed from the pooled
best-effort material and marks the state weak-seeded; then blocks of
`cipher(key, counter)` are produced, the counter incremented after each,
and the output is truncated to exactly `count` bytes. -/
def generate (ctx : Ctx) (count : Nat) : List Nat × Ctx :=
  let ctx1 :=
    if reseedDue ctx then
      let d := drainForReseed ctx
      { reseed d.2 d.1 with weakSeeded := false }
    else if ctx.keyBytes.isNone then
      let d := drainAll ctx
      { reseed d.2 d.1 with weakSeeded := true }
    else ctx
  let k := prng_aes.formatKey (ctx1.keyBytes.getD (List.replicate 16 0))
  let p := (List.range ((count + 15) / 16)).foldl
    (fun p _ =>
      (p.1 ++ (prng_aes.cipher k p.2 emptyBuffer).1, prng_aes.increment p.2))
    ([], ctx1.counter)
  (p.1.take count, { ctx1 with counter := p.2 })

end prng

/-! Load-time entropy collection and the public API of src/js/random.js. -/

/-- Shape of one `navigator` property as the probing loop of `initModule`
observes it: a string value, a non-string value, or a property whose read
throws (src/js/random.js lines 84-98). -/
inductive NavProp where
  | strVal : List Nat → NavProp
  | nonString : NavProp
  | inaccessible : NavProp
  deriving Repr, DecidableEq

/-- Source src/js/random.js lines 83-98: the accumulation of `_navBytes`;
string-valued properties are appended, non-strings skipped, and a read
that throws is caught and skipped, the loop continuing. -/
def navEntropyString (props : List NavProp) : List Nat :=
  props.foldl
    (fun acc p =>
      match p with
      | NavProp.strVal s => acc ++ s
      | NavProp.nonString => acc
      | NavProp.inaccessible => acc)
    []

/-- Selector for accessible string-valued navigator properties. -/
def navString : NavProp → Option (List Nat)
  | NavProp.strVal s => some s
  | NavProp.nonString => none
  | NavProp.inaccessible => none

/-- Host environment of the module at load time, as src/js/random.js lines
66-101 probe it: whether a node module system or a native `getRandomValues`
exists, the wall-clock time read at load, and the properties of the
navigator object (`none` when `navigator` is undefined). -/
structure HostEnv where
  nodejs : Bool
  webCrypto : Bool
  loadTime : Nat
  navigatorProps : Option (List NavProp)

/-- Source src/js/random.js lines 64-117: the module context after load.
When no native entropy source exists, the load time is collected as a
32-bit integer and, if a navigator is present, the concatenated navigator
strings are collected. -/
def initModuleCtx (env : HostEnv) : prng.Ctx :=
  if !env.nodejs && !env.webCrypto then
    let ctx := prng.collectInt prng.create env.loadTime 32
    match env.navigatorProps with
    | some props => prng.collect ctx (navEntropyString props)
    | none => ctx
  else prng.create

namespace random

/-- Source src/js/random.js lines 131-133: `forge.random.getBytes(count)`
returns `_ctx.generate(count)`. -/
def getBytes (ctx : prng.Ctx) (count : Nat) : List Nat × prng.Ctx :=
  prng.generate ctx count

end random

/-! Theorems about `cipher`. -/

/-- C3: `cipher` is deterministic; two calls with identical key schedule,
identical block state and identical module state (the shared buffer)
produce identical output bytes and identical final module state. -/
theorem cipher_deterministic (k1 s1 : List Nat) (st1 : ByteBuffer)
    (k2 s2 : List Nat) (st2 : ByteBuffer)
    (hk : k1 = k2) (hs : s1 = s2) (hst : st1 = st2) :
    prng_aes.cipher k1 s1 st1 = prng_aes.cipher k2 s2 st2 := by
  subst hk hs hst
  rfl

/-- Witness for `cipher_deterministic` at a concrete key, seed and buffer
state. -/
theorem cipher_deterministic_witness :
    ([3, 1, 4, 1] : List Nat) = [3, 1, 4, 1] ∧
      ([2, 7, 1, 8] : List Nat) = [2, 7, 1, 8] ∧
      emptyBuffer = emptyBuffer ∧
      prng_aes.cipher [3, 1, 4, 1] [2, 7, 1, 8] emptyBuffer =
        prng_aes.cipher [3, 1, 4, 1] [2, 7, 1, 8] emptyBuffer :=
  ⟨rfl, rfl, rfl,
    cipher_deterministic [3, 1, 4, 1] [2, 7, 1, 8] emptyBuffer
      [3, 1, 4, 1] [2, 7, 1, 8] emptyBuffer rfl rfl rfl⟩

/-- Helper: on an empty shared buffer, `cipher` emits the big-endian bytes
of the four block-update output words and clears the buffer. -/
theorem cipher_emptyBuffer_eq (key seed : List Nat) :
    prng_aes.cipher key seed emptyBuffer =
      (int32Bytes ((aes._updateBlock key seed false).getD 0 0) ++
        int32Bytes ((aes._updateBlock key seed false).getD 1 0) ++
        int32Bytes ((aes._updateBlock key seed false).getD 2 0) ++
        int32Bytes ((aes._updateBlock key seed false).getD 3 0),
        emptyBuffer) := by
  simp [prng_aes.cipher, ByteBuffer.putInt32, ByteBuffer.getBytes,
    emptyBuffer, List.append_assoc]

/-- Helper: with an empty shared buffer, the byte string `cipher` returns
has length 16. -/
theorem cipher_emptyBuffer_length (key seed : List Nat) :
    (prng_aes.cipher key seed emptyBuffer).1.length = 16 := by
  rw [cipher_emptyBuffer_eq]
  simp [int32Bytes]

/-- C10: when the shared module-level buffer is empty, `cipher` returns
exactly 16 bytes, namely the big-endian serialization of the four 32-bit
words of the AES block update, and the shared buffer is empty again
afterwards. -/
theorem cipher_emptyBuffer_16_bytes (key seed : List Nat) :
    (prng_aes.cipher key seed emptyBuffer).1 =
        int32Bytes ((aes._updateBlock key seed false).getD 0 0) ++
          int32Bytes ((aes._updateBlock key seed false).getD 1 0) ++
          int32Bytes ((aes._updateBlock key seed false).getD 2 0) ++
          int32Bytes ((aes._updateBlock key seed false).getD 3 0) ∧
      (prng_aes.cipher key seed emptyBuffer).1.length = 16 ∧
      (prng_aes.cipher key seed emptyBuffer).2 = emptyBuffer := by
  refine ⟨?_, ?_, ?_⟩
  · rw [cipher_emptyBuffer_eq]
  · rw [cipher_emptyBuffer_eq]
    simp [int32Bytes]
  · rw [cipher_emptyBuffer_eq]

/-! Theorems about `formatSeed` and `increment`. -/

/-- C6: for every 16-byte input, `formatSeed` returns the four 32-bit words
obtained by reading consecutive 4-byte groups of the input big-endian. -/
theorem formatSeed_bigEndian_words (b0 b1 b2 b3 b4 b5 b6 b7 b8 b9 b10 b11
    b12 b13 b14 b15 : Nat) :
    prng_aes.formatSeed
        [b0, b1, b2, b3, b4, b5, b6, b7, b8, b9, b10, b11, b12, b13, b14, b15] =
      [b0 * 2 ^ 24 + b1 * 2 ^ 16 + b2 * 2 ^ 8 + b3,
        b4 * 2 ^ 24 + b5 * 2 ^ 16 + b6 * 2 ^ 8 + b7,
        b8 * 2 ^ 24 + b9 * 2 ^ 16 + b10 * 2 ^ 8 + b11,
        b12 * 2 ^ 24 + b13 * 2 ^ 16 + b14 * 2 ^ 8 + b15] := by
  rfl

/-- C8: `increment` changes only word 3 of a four-word block, adding one to
it, and words 0, 1, 2 are returned unchanged. -/
theorem increment_only_word3 (w0 w1 w2 w3 : Nat) :
    prng_aes.increment [w0, w1, w2, w3] = [w0, w1, w2, w3 + 1] := by
  rfl

/-- C2 counterexample: at the block whose last word is 2 ^ 32 - 1 the
`increment` of the code does not coincide with incrementing the block as a
128-bit big integer — the carry into word 2 never happens (the code yields
word 3 = 2 ^ 32 while the big-integer semantics yields `[0, 0, 1, 0]`). -/
theorem increment_not_bigint_at_word3_max :
    prng_aes.increment [0, 0, 0, 4294967295] ≠
      incrementAsBigInteger [0, 0, 0, 4294967295] := by
  decide

/-- C2 amended: `increment` touches only word 3 of the block, adding one to
it without propagating any carry into words 0-2 and without reducing
anything modulo 2 ^ 128. -/
theorem increment_adds_one_to_word3_only (ws : List Nat)
    (h : ws.length = 4) :
    (prng_aes.increment ws).take 3 = ws.take 3 ∧
      (prng_aes.increment ws).getD 3 0 = ws.getD 3 0 + 1 := by
  match ws, h with
  | [a, b, c, d], _ => exact ⟨rfl, rfl⟩

/-- Witness for `increment_adds_one_to_word3_only` at the all-ones last
word, the input where carry propagation would matter. -/
theorem increment_adds_one_to_word3_only_witness :
    ([0, 0, 0, 4294967295] : List Nat).length = 4 ∧
      ((prng_aes.increment [0, 0, 0, 4294967295]).take 3 =
          ([0, 0, 0, 4294967295] : List Nat).take 3 ∧
        (prng_aes.increment [0, 0, 0, 4294967295]).getD 3 0 =
          ([0, 0, 0, 4294967295] : List Nat).getD 3 0 + 1) :=
  ⟨by decide, increment_adds_one_to_word3_only [0, 0, 0, 4294967295] (by decide)⟩

/-! Theorems about `formatKey`. -/

/-- Unfolding lemma: `formatKey` is the key expansion of the four big-endian
words read at offsets 0, 4, 8, 12 of the input. -/
theorem formatKey_eq_beWords (key : List Nat) :
    prng_aes.formatKey key =
      aes._expandKey [beWord key 0, beWord key 4, beWord key 8, beWord key 12]
        false := rfl

/-- Unfolding lemma: `formatSeed` is the list of the four big-endian words
read at offsets 0, 4, 8, 12 of the input. -/
theorem formatSeed_eq_beWords (seed : List Nat) :
    prng_aes.formatSeed seed =
      [beWord seed 0, beWord seed 4, beWord seed 8, beWord seed 12] := rfl

/-- Reading with default 0 from a list padded on the right with zeros gives
the same byte as reading the original list, at every index. -/
theorem getD_append_replicate_zero (key : List Nat) (n i : Nat) :
    (key ++ List.replicate n 0).getD i 0 = key.getD i 0 := by
  induction key generalizing i with
  | nil =>
      simp only [List.nil_append, List.getD_nil]
      induction n generalizing i with
      | zero => simp [List.getD_nil]
      | succ m ih =>
          cases i with
          | zero => simp [List.replicate_succ, List.getD_cons_zero]
          | succ j =>
              rw [List.replicate_succ, List.getD_cons_succ]
              exact ih j
  | cons a as ih =>
      cases i with
      | zero => simp [List.getD_cons_zero]
      | succ j =>
          rw [List.cons_append, List.getD_cons_succ, List.getD_cons_succ]
          exact ih j

/-- C5: for every 16-byte input, `formatKey` splits the input into four
big-endian 32-bit words and returns the AES key schedule expanded from
those words with the decrypt flag false, i.e. for encryption. -/
theorem formatKey_expands_bigEndian_words_for_encryption
    (b0 b1 b2 b3 b4 b5 b6 b7 b8 b9 b10 b11 b12 b13 b14 b15 : Nat) :
    prng_aes.formatKey
        [b0, b1, b2, b3, b4, b5, b6, b7, b8, b9, b10, b11, b12, b13, b14, b15] =
      aes._expandKey
        [b0 * 2 ^ 24 + b1 * 2 ^ 16 + b2 * 2 ^ 8 + b3,
          b4 * 2 ^ 24 + b5 * 2 ^ 16 + b6 * 2 ^ 8 + b7,
          b8 * 2 ^ 24 + b9 * 2 ^ 16 + b10 * 2 ^ 8 + b11,
          b12 * 2 ^ 24 + b13 * 2 ^ 16 + b14 * 2 ^ 8 + b15] false := by
  rfl

/-- C1 counterexample: a 5-byte key is not rejected; `formatKey` silently
reads the missing eleven bytes as zero and returns exactly the schedule of
the zero-padded 16-byte key.  No error value exists on this path. -/
theorem formatKey_pads_5_byte_key :
    prng_aes.formatKey [1, 2, 3, 4, 5] =
      prng_aes.formatKey [1, 2, 3, 4, 5, 0, 0, 0, 0, 0, 0, 0, 0, 0, 0, 0] := by
  rw [formatKey_eq_beWords, formatKey_eq_beWords]
  simp [beWord]

/-- C1 amended: `formatKey` performs no length validation; an input of at
most 16 bytes is processed exactly as its zero-padding to 16 bytes, the
bytes past the end of the input being read as zero. -/
theorem formatKey_short_input_zero_padded (key : List Nat)
    (h : key.length ≤ 16) :
    prng_aes.formatKey key =
      prng_aes.formatKey (key ++ List.replicate (16 - key.length) 0) := by
  rw [formatKey_eq_beWords, formatKey_eq_beWords]
  simp only [beWord, getD_append_replicate_zero]

/-- Witness for `formatKey_short_input_zero_padded` at the 5-byte example
input the specification discusses. -/
theorem formatKey_short_input_zero_padded_witness :
    ([1, 2, 3, 4, 5] : List Nat).length ≤ 16 ∧
      prng_aes.formatKey [1, 2, 3, 4, 5] =
        prng_aes.formatKey
          ([1, 2, 3, 4, 5] ++
            List.replicate (16 - ([1, 2, 3, 4, 5] : List Nat).length) 0) :=
  ⟨by decide, formatKey_short_input_zero_padded [1, 2, 3, 4, 5] (by decide)⟩

/-- Reading within the first 16 positions only depends on the 16-byte
prefix of the list. -/
theorem getD_eq_of_take16_eq {a b : List Nat} (h : a.take 16 = b.take 16)
    (i : Nat) (hi : i < 16) : a.getD i 0 = b.getD i 0 := by
  have ha : a.getD i 0 = (a.take 16).getD i 0 := by
    simp [List.getD_eq_getElem?_getD, List.getElem?_take_of_lt, hi]
  have hb : b.getD i 0 = (b.take 16).getD i 0 := by
    simp [List.getD_eq_getElem?_getD, List.getElem?_take_of_lt, hi]
  rw [ha, hb, h]

/-- C9: `formatKey` and `formatSeed` depend only on the first 16 bytes of
their input; two inputs of length at least 16 agreeing on their 16-byte
prefix produce identical results, trailing bytes being ignored. -/
theorem formatKey_formatSeed_use_first16_only (a b : List Nat)
    (ha : 16 ≤ a.length) (hb : 16 ≤ b.length) (h : a.take 16 = b.take 16) :
    prng_aes.formatKey a = prng_aes.formatKey b ∧
      prng_aes.formatSeed a = prng_aes.formatSeed b := by
  have hw : ∀ i, i + 3 < 16 → beWord a i = beWord b i := by
    intro i hi
    unfold beWord
    rw [getD_eq_of_take16_eq h i (by omega),
      getD_eq_of_take16_eq h (i + 1) (by omega),
      getD_eq_of_take16_eq h (i + 2) (by omega),
      getD_eq_of_take16_eq h (i + 3) (by omega)]
  constructor
  · rw [formatKey_eq_beWords, formatKey_eq_beWords,
      hw 0 (by norm_num), hw 4 (by norm_num), hw 8 (by norm_num),
      hw 12 (by norm_num)]
  · rw [formatSeed_eq_beWords, formatSeed_eq_beWords,
      hw 0 (by norm_num), hw 4 (by norm_num), hw 8 (by norm_num),
      hw 12 (by norm_num)]

/-- Witness for `formatKey_formatSeed_use_first16_only`: a 17-byte and an
18-byte input sharing the same 16-byte prefix. -/
theorem formatKey_formatSeed_use_first16_only_witness :
    16 ≤ ([10, 20, 30, 40, 50, 60, 70, 80, 90, 100, 110, 120, 130, 140, 150,
        160, 7] : List Nat).length ∧
      16 ≤ ([10, 20, 30, 40, 50, 60, 70, 80, 90, 100, 110, 120, 130, 140, 150,
        160, 8, 9] : List Nat).length ∧
      ([10, 20, 30, 40, 50, 60, 70, 80, 90, 100, 110, 120, 130, 140, 150, 160,
        7] : List Nat).take 16 =
        ([10, 20, 30, 40, 50, 60, 70, 80, 90, 100, 110, 120, 130, 140, 150,
          160, 8, 9] : List Nat).take 16 ∧
      (prng_aes.formatKey
          [10, 20, 30, 40, 50, 60, 70, 80, 90, 100, 110, 120, 130, 140, 150,
            160, 7] =
        prng_aes.formatKey
          [10, 20, 30, 40, 50, 60, 70, 80, 90, 100, 110, 120, 130, 140, 150,
            160, 8, 9] ∧
        prng_aes.formatSeed
          [10, 20, 30, 40, 50, 60, 70, 80, 90, 100, 110, 120, 130, 140, 150,
            160, 7] =
          prng_aes.formatSeed
            [10, 20, 30, 40, 50, 60, 70, 80, 90, 100, 110, 120, 130, 140, 150,
              160, 8, 9]) :=
  ⟨by decide, by decide, by decide,
    formatKey_formatSeed_use_first16_only _ _ (by decide) (by decide)
      (by decide)⟩

/-! Theorems about the load-time entropy probe and `getBytes`. -/

/-- Helper: the navigator accumulation fold from an arbitrary accumulator
collects exactly the accessible string-valued properties. -/
theorem navEntropyString_foldl_eq (props : List NavProp) (acc : List Nat) :
    props.foldl
        (fun acc p =>
          match p with
          | NavProp.strVal s => acc ++ s
          | NavProp.nonString => acc
          | NavProp.inaccessible => acc)
        acc =
      acc ++ (props.filterMap navString).flatten := by
  induction props generalizing acc with
  | nil => simp
  | cons p ps ih =>
      cases p <;> simp [navString, ih, List.append_assoc]

/-- Helper: `_navBytes` is the concatenation of the accessible
string-valued navigator properties. -/
theorem navEntropyString_eq_flatten (props : List NavProp) :
    navEntropyString props = (props.filterMap navString).flatten := by
  simpa [navEntropyString] using navEntropyString_foldl_eq props []

/-- C7: a navigator property whose read throws is skipped without aborting
the probe — deleting it changes nothing else — the collected string is
exactly the concatenation of the accessible string-valued properties, and
that string is what load-time initialisation passes to `collect`. -/
theorem navigator_probing_swallows_exceptions :
    (∀ ps qs, navEntropyString (ps ++ NavProp.inaccessible :: qs) =
        navEntropyString (ps ++ qs)) ∧
      (∀ props, navEntropyString props =
        (props.filterMap navString).flatten) ∧
      (∀ t props,
        initModuleCtx ⟨false, false, t, some props⟩ =
          prng.collect (prng.collectInt prng.create t 32)
            ((props.filterMap navString).flatten)) := by
  refine ⟨?_, navEntropyString_eq_flatten, ?_⟩
  · intro ps qs
    rw [navEntropyString_eq_flatten, navEntropyString_eq_flatten]
    simp [List.filterMap_append, navString]
  · intro t props
    show prng.collect (prng.collectInt prng.create t 32)
        (navEntropyString props) = _
    rw [navEntropyString_eq_flatten]

/-- Helper: the block-production fold of `generate` emits sixteen bytes
per block. -/
theorem generate_fold_length (k : List Nat) (L : List Nat)
    (acc ctr : List Nat) :
    ((L.foldl
        (fun p _ =>
          (p.1 ++ (prng_aes.cipher k p.2 emptyBuffer).1,
            prng_aes.increment p.2))
        (acc, ctr)).1).length = acc.length + 16 * L.length := by
  induction L generalizing acc ctr with
  | nil => simp
  | cons x xs ih =>
      simp only [List.foldl_cons]
      rw [ih]
      simp [List.length_append, cipher_emptyBuffer_length]
      omega

/-- Helper: `generate` always returns exactly `count` bytes, whatever the
context; it has no blocking or failing path. -/
theorem generate_length (ctx : prng.Ctx) (count : Nat) :
    (prng.generate ctx count).1.length = count := by
  simp only [prng.generate]
  rw [List.length_take, generate_fold_length]
  simp only [List.length_nil, List.length_range, Nat.zero_add]
  omega

/-- C4: on a cold start without a native entropy source and with zero
accumulated genuine entropy, the module has collected the wall-clock load
time as a 32-bit integer into pool 0, `getBytes` neither blocks nor fails
— it returns exactly the requested number of bytes — and the resulting
generator state carries the observable weak-seeded mark. -/
theorem getBytes_cold_start_weak_seeded (env : HostEnv) (count : Nat)
    (hn : env.nodejs = false) (hw : env.webCrypto = false) :
    (initModuleCtx env).pools.getD 0 [] = prng.intBytes env.loadTime 32 ∧
      (random.getBytes (initModuleCtx env) count).1.length = count ∧
      (random.getBytes (initModuleCtx env) count).2.weakSeeded = true := by
  obtain ⟨n, w, t, nav⟩ := env
  replace hn : n = false := hn
  replace hw : w = false := hw
  subst hn hw
  cases nav with
  | none => exact ⟨rfl, generate_length _ count, rfl⟩
  | some props => exact ⟨rfl, generate_length _ count, rfl⟩

/-- Witness for `getBytes_cold_start_weak_seeded` at a concrete browser
environment without native entropy and a 5-byte request. -/
theorem getBytes_cold_start_weak_seeded_witness :
    (HostEnv.mk false false 1262304000000 none).nodejs = false ∧
      (HostEnv.mk false false 1262304000000 none).webCrypto = false ∧
      ((initModuleCtx (HostEnv.mk false false 1262304000000 none)).pools.getD
          0 [] =
        prng.intBytes (HostEnv.mk false false 1262304000000 none).loadTime
          32 ∧
        (random.getBytes (initModuleCtx
            (HostEnv.mk false false 1262304000000 none)) 5).1.length = 5 ∧
        (random.getBytes (initModuleCtx
            (HostEnv.mk false false 1262304000000 none)) 5).2.weakSeeded =
          true) :=
  ⟨rfl, rfl,
    getBytes_cold_start_weak_seeded (HostEnv.mk false false 1262304000000
      none) 5 rfl rfl⟩

end Forge
